import Mathlib

/-
Verification of the invoicing core of facture-flow-algeria: the money/tax
calculator, the final-invoice status state machine, the payment ledger and
the proforma-to-final conversion.  Monetary values are modelled as rationals
(the source computes with JS numbers; the spec allows a 0.01 tolerance,
which absorbs the difference for the stated properties).  Statuses are
modelled as an inductive type: the source spells the five final-invoice
states "NonPayé"/"payé"/"partially_paid"/"annulé"/"credited" in the type
union (src/src/types/index.ts:89) and "unpaid"/"paid"/"partially_paid"/
"cancelled"/"credited" in the detail page (src/unnamed/part_002); both
vocabularies denote the same five abstract states, which is what we model.
-/

/-- The five final-invoice states (src/src/types/index.ts:89, the status
union of FinalInvoice; src/unnamed/part_002:251 uses the English
spellings, NewFinalInvoice.tsx:202 the French spelling NonPayé for the
unpaid member). -/
inductive FIStatus
| unpaid
| paid
| partially_paid
| cancelled
| credited
deriving DecidableEq

/-- The four proforma-invoice states (src/src/types/index.ts:70). -/
inductive ProformaStatus
| draft
| sent
| approved
| rejected
deriving DecidableEq

/-- An invoice line item as entered in a form: product reference, quantity,
unit price, tax rate (percent) and discount (src/src/pages/invoices/
NewFinalInvoice.tsx:50-57 invoiceItemSchema; part_003 form items). -/
structure InvoiceItem where
  productId : String
  quantity : ℚ
  unitprice : ℚ
  taxrate : ℚ
  discount : ℚ

/-- A line item with its three derived money fields, as built inside
createInvoiceMutation (NewFinalInvoice.tsx:147-166). -/
structure CalculatedItem where
  productId : String
  quantity : ℚ
  unitprice : ℚ
  taxrate : ℚ
  discount : ℚ
  totalExcl : ℚ
  totalTax : ℚ
  total : ℚ

/-- The final-invoice creation form data (NewFinalInvoice.tsx:59-66
finalInvoiceSchema: clientid, issuedate, notes, items, payment_type, bc;
the date fields play no role in the money computations and are omitted). -/
structure FormData where
  clientid : String
  notes : String
  payment_type : String
  bc : String
  items : List InvoiceItem

/-- The monetary and copied fields of the final-invoice record built by
createInvoiceMutation (NewFinalInvoice.tsx:192-212 invoiceData).  The
invoice number (server-side sequence with timestamp fallback) and the
date/user fields are outside the model. -/
structure FinalInvoice where
  status : FIStatus
  clientid : String
  notes : String
  payment_type : String
  bc : String
  items : List CalculatedItem
  subtotal : ℚ
  taxtotal : ℚ
  stamp_tax : ℚ
  total : ℚ
  amount_paid : ℚ
  client_debt : ℚ

/-- calculateStampTax (NewFinalInvoice.tsx:78-90; the identical copy at
part_003:177-189): stamp duty applied only to cash payment, with three
exclusive lower-bound thresholds tested highest first. -/
def calculateStampTax (paymentType : String) (subtotal : ℚ) : ℚ :=
  if paymentType ≠ "cash" then 0
  else if subtotal > 100000 then subtotal * 0.02
  else if subtotal > 30000 then subtotal * 0.015
  else if subtotal > 300 then subtotal * 0.01
  else 0

/-- Per-item recalculation inside createInvoiceMutation
(NewFinalInvoice.tsx:147-166): percentage-discount formula
totalExcl = quantity * unitprice * (1 - discount / 100), then
totalTax = totalExcl * taxrate / 100 and total = totalExcl + totalTax.
The same percentage formula appears in updateItemProduct
(part_003:271-273). -/
def calculateItem (it : InvoiceItem) : CalculatedItem :=
  let totalExcl := it.quantity * it.unitprice * (1 - it.discount / 100)
  let totalTax := totalExcl * (it.taxrate / 100)
  { productId := it.productId, quantity := it.quantity,
    unitprice := it.unitprice, taxrate := it.taxrate,
    discount := it.discount, totalExcl := totalExcl,
    totalTax := totalTax, total := totalExcl + totalTax }

/-- Per-item subtotal inside calculateTotals (part_003:219):
flat-amount-discount formula itemSubtotal = quantity * unitprice - discount. -/
def itemSubtotal (it : InvoiceItem) : ℚ :=
  it.quantity * it.unitprice - it.discount

/-- The totals record produced by calculateTotals (part_003:201-230). -/
structure Totals where
  totaldiscount : ℚ
  subtotal : ℚ
  taxTotal : ℚ
  stampTax : ℚ
  total : ℚ

/-- calculateTotals (part_003:201-230, proforma edit page): items without a
product reference are skipped (the source returns early on a falsy
item.productId, i.e. the empty string); each remaining item contributes
the flat-discount subtotal and its tax. -/
def calculateTotals (items : List InvoiceItem) (paymentType : String) : Totals :=
  let act := items.filter (fun it => it.productId ≠ "")
  let totaldiscount := (act.map (fun it => it.discount)).sum
  let subtotal := (act.map itemSubtotal).sum
  let taxTotal := (act.map (fun it => itemSubtotal it * (it.taxrate / 100))).sum
  let stampTax := calculateStampTax paymentType subtotal
  { totaldiscount := totaldiscount, subtotal := subtotal, taxTotal := taxTotal,
    stampTax := stampTax, total := subtotal + taxTotal + stampTax }

/-- The invoice record built by createInvoiceMutation
(NewFinalInvoice.tsx:145-217): items recalculated with the percentage
formula, subtotal and taxTotal summed over them, stamp tax from the
payment type, total = subtotal + taxTotal + stampTax, status set to the
unpaid state (source literal at line 202 is the string NonPayé, the unpaid
member of the status union of types/index.ts:89), amount_paid 0 and
client_debt equal to the total; clientid, notes, payment_type and bc are
copied from the form data. -/
def createInvoiceData (d : FormData) : FinalInvoice :=
  let calculatedItems := d.items.map calculateItem
  let subtotal := (calculatedItems.map (fun it => it.totalExcl)).sum
  let taxTotal := (calculatedItems.map (fun it => it.totalTax)).sum
  let stampTax := calculateStampTax d.payment_type subtotal
  let total := subtotal + taxTotal + stampTax
  { status := FIStatus.unpaid, clientid := d.clientid, notes := d.notes,
    payment_type := d.payment_type, bc := d.bc, items := calculatedItems,
    subtotal := subtotal, taxtotal := taxTotal, stamp_tax := stampTax,
    total := total, amount_paid := 0, client_debt := total }

/-- A proforma invoice: status, optional link to its final invoice, and the
fields copied on conversion (src/src/types/index.ts:69-75). -/
structure Proforma where
  status : ProformaStatus
  finalInvoiceId : Option String
  clientid : String
  notes : String
  payment_type : String
  bc : String
  items : List InvoiceItem

/-- The form prefill used when NewFinalInvoice is opened with a proformaId
(NewFinalInvoice.tsx:125-143): clientid, notes, payment_type, bc and the
items (quantity, unitprice, taxrate, discount per item) are copied from
the source proforma.  The source's or-empty-string fallbacks on notes,
payment_type and bc are the identity on strings. -/
def prefillFromProforma (p : Proforma) : FormData :=
  { clientid := p.clientid, notes := p.notes, payment_type := p.payment_type,
    bc := p.bc, items := p.items }

/-- The UI gate for the convert action (part_003:1184): offered only when
the proforma status is approved, no final invoice is linked yet, and the
user has the convert permission. -/
def convertOffered (p : Proforma) (canConvert : Bool) : Prop :=
  p.status = ProformaStatus.approved ∧ p.finalInvoiceId = none ∧ canConvert = true

/-- Modelled from the spec: the datastore operation convertProformaToFinal
(called at part_003:425 through mockDataService) is not under src.  Spec
section 4.4: allowed only when proforma.status == approved and no existing
finalInvoiceId; produces a new FinalInvoice copying client, items (with
recalculated totals), notes, payment_type, bc, with status unpaid,
amount_paid = 0 and client_debt = total; sets proforma.finalInvoiceId to
the new id.  The created record is the same one createInvoiceMutation
builds from the prefilled form. -/
def convertProformaToFinal (p : Proforma) (newId : String) :
    Option (Proforma × FinalInvoice) :=
  if p.status = ProformaStatus.approved ∧ p.finalInvoiceId = none then
    some ({ p with finalInvoiceId := some newId },
          createInvoiceData (prefillFromProforma p))
  else none

/-- Two-decimal rounding Math.round(x * 100) / 100 as used in the
PaymentForm amount handler (part_007:201, 208); JS Math.round y is
the floor of y + 1/2. -/
def roundCents (q : ℚ) : ℚ :=
  ((Int.floor (q * 100 + 1/2) : ℤ) : ℚ) / 100

/-- The PaymentForm amount-field onChange handler (part_007:200-215): the
entered value is rounded to two decimals; if the rounded value does not
exceed the remaining debt it is recorded, otherwise the remaining debt
rounded to two decimals is recorded (with a user-visible notice).  The
NaN branch (non-numeric input becomes 0) is outside the model. -/
def amountFieldOnChange (entered remainingDebt : ℚ) : ℚ :=
  if roundCents entered ≤ remainingDebt then roundCents entered
  else roundCents remainingDebt

/-- paymentFormSchema's amount rule (part_007:29): the submitted amount
must be strictly positive. -/
def paymentFormSchemaAmountOk (amount : ℚ) : Prop := 0 < amount

/-- The final-invoice state as seen by the detail page (part_002): stored
status, total, the amount_paid/client_debt pair (paymentSummary uses the
stored fields when they are defined, part_002:138-142), and the payment
ledger rows for the invoice. -/
structure InvoiceState where
  status : FIStatus
  total : ℚ
  amount_paid : ℚ
  client_debt : ℚ
  payments : List ℚ

/-- Sum of the recorded payment amounts
(payments.reduce((sum, p) => sum + (p.amount || 0), 0), part_002:268). -/
def sumPayments (s : InvoiceState) : ℚ := s.payments.sum

/-- computedStatus (part_002:397-409): display status derived at read time.
The branches are tested in source order: amount_paid >= total first, then
amount_paid > 0, then the stored-status check, else the stored status is
kept. -/
def computedStatus (s : InvoiceState) : FIStatus :=
  if s.amount_paid ≥ s.total then FIStatus.paid
  else if s.amount_paid > 0 then FIStatus.partially_paid
  else if s.status ≠ FIStatus.cancelled ∧ s.status ≠ FIStatus.credited then FIStatus.unpaid
  else s.status

/-- handleUpdateStatus (part_002:251-289).  additionalData may carry an
amount_paid and a client_debt override (both optional).  When the target
status is paid and additionalData.amount_paid is JS-falsy (absent or 0),
amount_paid is set to the invoice total and client_debt to 0.  When the
target status is unpaid, the payments sum decides: if positive, amount_paid
becomes that sum and client_debt max(0, total - sum); otherwise amount_paid
is 0 and client_debt the invoice total (the source also clears the payment
date).  updateFinalInvoice merges the given fields into the stored row;
fields not present in the update are unchanged. -/
def handleUpdateStatus (s : InvoiceState) (st : FIStatus)
    (aAp aCd : Option ℚ) : InvoiceState :=
  let d1 : Option ℚ × Option ℚ :=
    if st = FIStatus.paid ∧ aAp.getD 0 = 0 then (some s.total, some 0)
    else (aAp, aCd)
  let totalPaid := sumPayments s
  let d2 : Option ℚ × Option ℚ :=
    if st = FIStatus.unpaid then
      if totalPaid > 0 then (some totalPaid, some (max 0 (s.total - totalPaid)))
      else (some 0, some s.total)
    else d1
  { s with status := st,
           amount_paid := d2.1.getD s.amount_paid,
           client_debt := d2.2.getD s.client_debt }

/-- handleMarkAsPaid (part_002:292-301): update to paid with
amount_paid = total and client_debt = 0.  The mark-paid dialog at
part_002:942-952 sends the same update directly. -/
def handleMarkAsPaid (s : InvoiceState) : InvoiceState :=
  handleUpdateStatus s FIStatus.paid (some s.total) (some 0)

/-- The revert action (part_002:1064): handleUpdateStatus with target
status unpaid and no additional data. -/
def handleRevertToUnpaid (s : InvoiceState) : InvoiceState :=
  handleUpdateStatus s FIStatus.unpaid none none

/-- The cancel action (part_002:1006): handleUpdateStatus with target
status cancelled and no additional data. -/
def handleCancelInvoice (s : InvoiceState) : InvoiceState :=
  handleUpdateStatus s FIStatus.cancelled none none

/-- The edit form (part_002:550-563 status select, updateInvoiceMutation):
it can store any of the five statuses but touches neither the monetary
aggregates nor the ledger. -/
def updateInvoiceStatusField (s : InvoiceState) (st : FIStatus) : InvoiceState :=
  { s with status := st }

/-- Modelled from the spec: the aggregate recompute that follows a payment
add or delete lives in the supabase client helpers, which are not under
src.  Spec sections 4.3 and 8: after a payment add/delete the aggregates
reconcile with the ledger, amount_paid = sum of payments and
client_debt = max(0, total - sum) - the same formula the detail page's
fallback summary (part_002:145-150) and the revert branch
(part_002:268-276) use. -/
def recomputeAggregates (s : InvoiceState) : InvoiceState :=
  let totalPaid := sumPayments s
  { s with amount_paid := totalPaid, client_debt := max 0 (s.total - totalPaid) }

/-- Payment addition: the clamped amount is appended to the ledger and the
aggregates are recomputed. -/
def applyAddPayment (s : InvoiceState) (amt : ℚ) : InvoiceState :=
  recomputeAggregates { s with payments := s.payments ++ [amt] }

/-- Payment deletion (PaymentHistory in part_006, deleteInvoicePayment):
the row is removed and the aggregates are recomputed. -/
def applyDeletePayment (s : InvoiceState) (i : ℕ) : InvoiceState :=
  recomputeAggregates { s with payments := s.payments.eraseIdx i }

/-- Gate of the mark-as-paid button (part_002:923): shown only when the
computed status is unpaid and the user can edit. -/
def markPaidOffered (s : InvoiceState) (canEdit : Bool) : Prop :=
  computedStatus s = FIStatus.unpaid ∧ canEdit = true

/-- Gate of the cancel button (part_002:987). -/
def cancelOffered (s : InvoiceState) (canEdit : Bool) : Prop :=
  computedStatus s = FIStatus.unpaid ∧ canEdit = true

/-- Gate of the delete button (part_002:1016). -/
def deleteOffered (s : InvoiceState) (canEdit : Bool) : Prop :=
  computedStatus s = FIStatus.unpaid ∧ canEdit = true

/-- Gate of the add-payment dialog (part_002:962): computed status neither
cancelled nor credited, edit permission, and a positive remaining debt. -/
def addPaymentOffered (s : InvoiceState) (canEdit : Bool) : Prop :=
  computedStatus s ≠ FIStatus.cancelled ∧ computedStatus s ≠ FIStatus.credited ∧
  canEdit = true ∧ s.client_debt > 0

/-- Gate of the revert button (part_002:1044). -/
def revertOffered (s : InvoiceState) (canEdit : Bool) : Prop :=
  (computedStatus s = FIStatus.paid ∨ computedStatus s = FIStatus.partially_paid ∨
    computedStatus s = FIStatus.cancelled) ∧ canEdit = true

/-- The detail-page state of a freshly created invoice: the stored fields
from createInvoiceMutation and an empty payment ledger. -/
def createdState (d : FormData) : InvoiceState :=
  { status := (createInvoiceData d).status,
    total := (createInvoiceData d).total,
    amount_paid := (createInvoiceData d).amount_paid,
    client_debt := (createInvoiceData d).client_debt,
    payments := [] }

/-- One user-visible operation on a final invoice, guarded exactly as the
detail page guards its buttons (part_002) and the payment form validates
its amount (part_007): mark paid, cancel and delete require computed
status unpaid; revert requires computed status paid, partially_paid or
cancelled; adding a payment requires a positive remaining debt, a
non-cancelled non-credited computed status and a positive recorded amount
(the zod schema rejects non-positive submissions); deleting a payment
requires the row to exist; the edit form can store any status. -/
inductive Step : InvoiceState → InvoiceState → Prop
| markPaid (s : InvoiceState) (h : computedStatus s = FIStatus.unpaid) :
    Step s (handleMarkAsPaid s)
| cancel (s : InvoiceState) (h : computedStatus s = FIStatus.unpaid) :
    Step s (handleCancelInvoice s)
| revert (s : InvoiceState)
    (h : computedStatus s = FIStatus.paid ∨ computedStatus s = FIStatus.partially_paid ∨
      computedStatus s = FIStatus.cancelled) :
    Step s (handleRevertToUnpaid s)
| editStatus (s : InvoiceState) (st : FIStatus) :
    Step s (updateInvoiceStatusField s st)
| addPayment (s : InvoiceState) (v : ℚ) (hdebt : 0 < s.client_debt)
    (hc : computedStatus s ≠ FIStatus.cancelled)
    (hcr : computedStatus s ≠ FIStatus.credited)
    (hpos : 0 < amountFieldOnChange v s.client_debt) :
    Step s (applyAddPayment s (amountFieldOnChange v s.client_debt))
| deletePayment (s : InvoiceState) (i : ℕ) (h : i < s.payments.length) :
    Step s (applyDeletePayment s i)

/-- States reachable from invoice creation through the guarded operations. -/
inductive Reachable : InvoiceState → Prop
| created (d : FormData) : Reachable (createdState d)
| step {s t : InvoiceState} : Reachable s → Step s t → Reachable t

/-- The inductive shape of every reachable state: all ledger rows are
positive, and the aggregate pair is in one of the three canonical forms
the operations produce - freshly created (amount_paid 0, client_debt equal
to the total, empty ledger), ledger-reconciled (amount_paid the payments
sum, client_debt max(0, total - sum), with the sum at most total + 1/200
because each clamped payment can overshoot the remaining debt by at most
half a cent of rounding), or marked paid (amount_paid total, client_debt
0, empty ledger, positive total). -/
def GoodState (s : InvoiceState) : Prop :=
  (∀ p ∈ s.payments, 0 < p) ∧
  ((s.amount_paid = 0 ∧ s.client_debt = s.total ∧ s.payments = []) ∨
   (s.amount_paid = sumPayments s ∧
      s.client_debt = max 0 (s.total - sumPayments s) ∧
      sumPayments s ≤ s.total + 1/200) ∨
   (s.amount_paid = s.total ∧ s.client_debt = 0 ∧ s.payments = [] ∧ 0 < s.total))

/-- Unfolding of the mark-as-paid update: status paid, amount_paid the
total, client_debt 0, other fields untouched. -/
theorem handleMarkAsPaid_eq (s : InvoiceState) :
    handleMarkAsPaid s =
      { s with status := FIStatus.paid, amount_paid := s.total, client_debt := 0 } := by
  unfold handleMarkAsPaid handleUpdateStatus
  by_cases h : s.total = 0 <;> simp [h]

/-- Unfolding of the cancel update: only the status changes. -/
theorem handleCancelInvoice_eq (s : InvoiceState) :
    handleCancelInvoice s = { s with status := FIStatus.cancelled } := by
  unfold handleCancelInvoice handleUpdateStatus
  simp

/-- Unfolding of the revert update, by cases on the payments sum. -/
theorem handleRevertToUnpaid_eq (s : InvoiceState) :
    handleRevertToUnpaid s =
      (if sumPayments s > 0 then
        { s with status := FIStatus.unpaid, amount_paid := sumPayments s,
                 client_debt := max 0 (s.total - sumPayments s) }
       else
        { s with status := FIStatus.unpaid, amount_paid := 0,
                 client_debt := s.total }) := by
  unfold handleRevertToUnpaid handleUpdateStatus
  by_cases h : sumPayments s > 0 <;> simp [h]

/-- Two-decimal rounding overshoots its argument by at most half a cent. -/
theorem roundCents_le (q : ℚ) : roundCents q ≤ q + 1/200 := by
  unfold roundCents
  have h := Int.floor_le (q * 100 + 1/2)
  rw [div_le_iff₀ (by norm_num : (0:ℚ) < 100)]
  linarith

/-- Two-decimal rounding undershoots its argument by less than half a cent. -/
theorem lt_roundCents (q : ℚ) : q - 1/200 < roundCents q := by
  unfold roundCents
  have h := Int.sub_one_lt_floor (q * 100 + 1/2)
  rw [lt_div_iff₀ (by norm_num : (0:ℚ) < 100)]
  linarith

/-- If rd lies between v and its rounding from below, both round alike. -/
theorem roundCents_eq_of_le_of_lt {v rd : ℚ} (h1 : v ≤ rd)
    (h2 : rd < roundCents v) : roundCents rd = roundCents v := by
  unfold roundCents at h2 ⊢
  have hfloor : Int.floor (rd * 100 + 1/2) = Int.floor (v * 100 + 1/2) := by
    rw [Int.floor_eq_iff]
    constructor
    · calc ((Int.floor (v * 100 + 1/2) : ℤ) : ℚ) ≤ v * 100 + 1/2 := Int.floor_le _
        _ ≤ rd * 100 + 1/2 := by linarith
    · rw [lt_div_iff₀ (by norm_num : (0:ℚ) < 100)] at h2
      linarith
  rw [hfloor]

/-- If rd lies between the rounding of v and v itself, both round alike. -/
theorem roundCents_eq_of_le_of_lt2 {v rd : ℚ} (h1 : roundCents v ≤ rd)
    (h2 : rd < v) : roundCents rd = roundCents v := by
  unfold roundCents at h1 ⊢
  have hfloor : Int.floor (rd * 100 + 1/2) = Int.floor (v * 100 + 1/2) := by
    rw [Int.floor_eq_iff]
    constructor
    · rw [div_le_iff₀ (by norm_num : (0:ℚ) < 100)] at h1
      linarith
    · have hv := Int.lt_floor_add_one (v * 100 + 1/2)
      linarith
  rw [hfloor]

/-- The clamped recorded amount is at most the remaining debt plus half a
cent of rounding. -/
theorem amountFieldOnChange_le (v rd : ℚ) :
    amountFieldOnChange v rd ≤ rd + 1/200 := by
  unfold amountFieldOnChange
  split_ifs with h
  · linarith
  · exact roundCents_le rd

/-- A list of positive rationals with nonpositive sum is empty. -/
theorem eq_nil_of_sum_nonpos (l : List ℚ) (hpos : ∀ p ∈ l, 0 < p)
    (h : l.sum ≤ 0) : l = [] := by
  cases l with
  | nil => rfl
  | cons a t =>
    exfalso
    have ha : 0 < a := hpos a (by simp)
    have ht : 0 ≤ t.sum := List.sum_nonneg (fun p hp => le_of_lt (hpos p (by simp [hp])))
    simp only [List.sum_cons] at h
    linarith

/-- Erasing an index from a list of nonnegative rationals does not increase
the sum. -/
theorem sum_eraseIdx_le (l : List ℚ) (i : ℕ) (hpos : ∀ p ∈ l, 0 ≤ p) :
    (l.eraseIdx i).sum ≤ l.sum := by
  induction l generalizing i with
  | nil => simp
  | cons a t ih =>
    cases i with
    | zero =>
      simp only [List.eraseIdx, List.sum_cons]
      have := hpos a (by simp)
      linarith [this]
    | succ n =>
      simp only [List.eraseIdx, List.sum_cons]
      have := ih n (fun p hp => hpos p (by simp [hp]))
      linarith

/-- Membership is preserved from an erased list back to the original. -/
theorem mem_of_mem_eraseIdx {l : List ℚ} {i : ℕ} {p : ℚ}
    (h : p ∈ l.eraseIdx i) : p ∈ l := by
  induction l generalizing i with
  | nil => simp at h
  | cons a t ih =>
    cases i with
    | zero =>
      simp only [List.eraseIdx] at h
      exact List.mem_cons_of_mem a h
    | succ n =>
      simp only [List.eraseIdx] at h
      rcases List.mem_cons.mp h with h1 | h2
      · exact h1 ▸ List.mem_cons_self a t
      · exact List.mem_cons_of_mem a (ih h2)

/-- A computed status of unpaid means the two payment branches of
computedStatus did not fire: amount_paid is below the total and not
positive. -/
theorem computedStatus_unpaid_facts {s : InvoiceState}
    (h : computedStatus s = FIStatus.unpaid) :
    ¬ s.amount_paid ≥ s.total ∧ ¬ s.amount_paid > 0 := by
  unfold computedStatus at h
  split_ifs at h with h1 h2 h3
  · exact ⟨h1, h2⟩
  · exfalso
    rcases not_and_or.mp h3 with hc | hcr
    · rw [not_not] at hc
      rw [hc] at h
      exact absurd h (by simp)
    · rw [not_not] at hcr
      rw [hcr] at h
      exact absurd h (by simp)

/-- Mark-as-paid preserves the canonical invariant (it is only offered on a
computed-unpaid invoice, so the ledger is empty and the total positive). -/
theorem goodState_markPaid {s : InvoiceState} (hg : GoodState s)
    (h : computedStatus s = FIStatus.unpaid) :
    GoodState (handleMarkAsPaid s) := by
  obtain ⟨hpos, hcase⟩ := hg
  obtain ⟨hlt, hle⟩ := computedStatus_unpaid_facts h
  rw [handleMarkAsPaid_eq]
  have hnil : s.payments = [] := by
    rcases hcase with ⟨ha, _, hp⟩ | ⟨ha, _, _⟩ | ⟨ha, _, hp, _⟩
    · exact hp
    · refine eq_nil_of_sum_nonpos s.payments hpos ?_
      rw [ha] at hle
      exact le_of_not_lt hle
    · exact hp
  have htot : 0 < s.total := by
    rcases hcase with ⟨ha, _, _⟩ | ⟨ha, _, _⟩ | ⟨ha, _, _, _⟩
    · rw [ha] at hlt
      exact lt_of_not_le hlt
    · have hs0 : sumPayments s = 0 := by
        unfold sumPayments
        rw [hnil]
        rfl
      rw [ha, hs0] at hlt
      exact lt_of_not_le hlt
    · exact absurd (ha ▸ le_refl s.total) hlt
  exact ⟨hpos, Or.inr (Or.inr ⟨rfl, rfl, hnil, htot⟩)⟩

/-- Cancelling only changes the stored status and preserves the canonical
invariant. -/
theorem goodState_cancel {s : InvoiceState} (hg : GoodState s) :
    GoodState (handleCancelInvoice s) := by
  rw [handleCancelInvoice_eq]
  exact hg

/-- Editing the stored status preserves the canonical invariant. -/
theorem goodState_editStatus {s : InvoiceState} (st : FIStatus)
    (hg : GoodState s) : GoodState (updateInvoiceStatusField s st) := hg

/-- Reverting to unpaid preserves the canonical invariant. -/
theorem goodState_revert {s : InvoiceState} (hg : GoodState s) :
    GoodState (handleRevertToUnpaid s) := by
  obtain ⟨hpos, hcase⟩ := hg
  rw [handleRevertToUnpaid_eq]
  split_ifs with h
  · refine ⟨hpos, Or.inr (Or.inl ⟨rfl, rfl, ?_⟩)⟩
    rcases hcase with ⟨_, _, hp⟩ | ⟨_, _, hb⟩ | ⟨_, _, hp, _⟩
    · exfalso
      unfold sumPayments at h
      rw [hp] at h
      exact absurd h (by norm_num)
    · exact hb
    · exfalso
      unfold sumPayments at h
      rw [hp] at h
      exact absurd h (by norm_num)
  · have hnil : s.payments = [] :=
      eq_nil_of_sum_nonpos s.payments hpos (le_of_not_lt h)
    exact ⟨hpos, Or.inl ⟨rfl, rfl, hnil⟩⟩

/-- Adding a clamped positive payment preserves the canonical invariant:
the recorded amount can exceed the remaining debt only by the half-cent
rounding slack. -/
theorem goodState_addPayment {s : InvoiceState} (v : ℚ) (hg : GoodState s)
    (hdebt : 0 < s.client_debt)
    (hrec : 0 < amountFieldOnChange v s.client_debt) :
    GoodState (applyAddPayment s (amountFieldOnChange v s.client_debt)) := by
  obtain ⟨hpos, hcase⟩ := hg
  set amt := amountFieldOnChange v s.client_debt with hamt
  have hamt_le : amt ≤ s.client_debt + 1/200 := amountFieldOnChange_le v s.client_debt
  have hS : sumPayments (applyAddPayment s amt) = sumPayments s + amt := by
    unfold applyAddPayment recomputeAggregates sumPayments
    simp
  refine ⟨?_, Or.inr (Or.inl ⟨?_, ?_, ?_⟩)⟩
  · intro p hp
    have hp2 : p ∈ s.payments ++ [amt] := hp
    rcases List.mem_append.mp hp2 with hp3 | hp3
    · exact hpos p hp3
    · exact (List.mem_singleton.mp hp3) ▸ hrec
  · rw [hS]
    unfold applyAddPayment recomputeAggregates sumPayments
    simp
  · rw [hS]
    unfold applyAddPayment recomputeAggregates sumPayments
    simp
  · rw [hS]
    show sumPayments s + amt ≤ s.total + 1/200
    rcases hcase with ⟨_, hcd, hp⟩ | ⟨_, hcd, hb⟩ | ⟨_, hcd, _, _⟩
    · have hs0 : sumPayments s = 0 := by
        unfold sumPayments
        rw [hp]
        rfl
      rw [hcd] at hamt_le
      rw [hs0]
      linarith
    · have hcdpos := hdebt
      rw [hcd] at hcdpos
      have hts : 0 < s.total - sumPayments s := by
        rcases lt_max_iff.mp hcdpos with h0 | h0
        · exact absurd h0 (by norm_num)
        · exact h0
      rw [hcd, max_eq_right (le_of_lt hts)] at hamt_le
      linarith
    · rw [hcd] at hdebt
      exact absurd hdebt (by norm_num)

/-- Deleting a payment preserves the canonical invariant. -/
theorem goodState_deletePayment {s : InvoiceState} (i : ℕ) (hg : GoodState s)
    (h : i < s.payments.length) : GoodState (applyDeletePayment s i) := by
  obtain ⟨hpos, hcase⟩ := hg
  have hle : (s.payments.eraseIdx i).sum ≤ s.payments.sum :=
    sum_eraseIdx_le s.payments i (fun p hp => le_of_lt (hpos p hp))
  refine ⟨?_, Or.inr (Or.inl ⟨rfl, rfl, ?_⟩)⟩
  · intro p hp
    have hp2 : p ∈ s.payments.eraseIdx i := hp
    exact hpos p (mem_of_mem_eraseIdx hp2)
  · show (s.payments.eraseIdx i).sum ≤ s.total + 1/200
    rcases hcase with ⟨_, _, hp⟩ | ⟨_, _, hb⟩ | ⟨_, _, hp, _⟩
    · exfalso
      rw [hp] at h
      exact absurd h (by simp)
    · have hb2 : s.payments.sum ≤ s.total + 1/200 := hb
      linarith
    · exfalso
      rw [hp] at h
      exact absurd h (by simp)

/-- Every guarded operation preserves the canonical invariant. -/
theorem goodState_step {s t : InvoiceState} (hg : GoodState s)
    (hstep : Step s t) : GoodState t := by
  cases hstep with
  | markPaid h => exact goodState_markPaid hg h
  | cancel h => exact goodState_cancel hg
  | revert h => exact goodState_revert hg
  | editStatus st => exact goodState_editStatus st hg
  | addPayment v hdebt hc hcr hpos => exact goodState_addPayment v hg hdebt hpos
  | deletePayment i h => exact goodState_deletePayment i hg h

/-- A freshly created invoice satisfies the canonical invariant. -/
theorem createdState_goodState (d : FormData) : GoodState (createdState d) :=
  ⟨by simp [createdState], Or.inl ⟨rfl, rfl, rfl⟩⟩

/-- Every reachable state satisfies the canonical invariant. -/
theorem reachable_goodState {s : InvoiceState} (h : Reachable s) :
    GoodState s := by
  induction h with
  | created d => exact createdState_goodState d
  | step hr hstep ih => exact goodState_step ih hstep

/-- In a canonical state the aggregate pair balances the total to within a
cent. -/
theorem goodState_balance {s : InvoiceState} (hg : GoodState s) :
    |s.amount_paid + s.client_debt - s.total| ≤ 1/100 := by
  obtain ⟨_, hcase⟩ := hg
  rw [abs_le]
  rcases hcase with ⟨ha, hcd, _⟩ | ⟨ha, hcd, hb⟩ | ⟨ha, hcd, _, _⟩
  · constructor <;> (rw [ha, hcd]; norm_num)
  · rcases le_total 0 (s.total - sumPayments s) with hts | hts
    · rw [max_eq_right hts] at hcd
      constructor <;> (rw [ha, hcd]; linarith)
    · rw [max_eq_left hts] at hcd
      constructor <;> (rw [ha, hcd]; linarith)
  · constructor <;> (rw [ha, hcd]; norm_num)

/-- C1 counterexample: the claim says a stored cancelled/credited status is
sticky with payments ignored for display, but computedStatus tests
amount_paid >= total first, so a cancelled invoice whose amount_paid
reaches its total displays paid, not cancelled. -/
theorem c1_sticky_counterexample :
    computedStatus ⟨FIStatus.cancelled, 1000, 1000, 0, [1000]⟩ = FIStatus.paid ∧
    FIStatus.paid ≠ FIStatus.cancelled := by
  constructor
  · decide
  · decide

/-- C1 (amended): for a final invoice with positive total, the displayed
computedStatus is paid when amount_paid >= total, partially_paid when
0 < amount_paid < total, unpaid when amount_paid = 0 and the stored status
is neither cancelled nor credited, and equals the stored cancelled/credited
status only in the amount_paid = 0 case - recorded payments are not
ignored for cancelled/credited invoices. -/
theorem c1_computedStatus_amended (s : InvoiceState) (hpos : 0 < s.total) :
    (s.amount_paid ≥ s.total → computedStatus s = FIStatus.paid) ∧
    (0 < s.amount_paid → s.amount_paid < s.total →
      computedStatus s = FIStatus.partially_paid) ∧
    (s.amount_paid = 0 → s.status ≠ FIStatus.cancelled → s.status ≠ FIStatus.credited →
      computedStatus s = FIStatus.unpaid) ∧
    (s.amount_paid = 0 → (s.status = FIStatus.cancelled ∨ s.status = FIStatus.credited) →
      computedStatus s = s.status) := by
  refine ⟨?_, ?_, ?_, ?_⟩
  · intro h
    unfold computedStatus
    rw [if_pos h]
  · intro h1 h2
    unfold computedStatus
    rw [if_neg (not_le.mpr h2), if_pos h1]
  · intro h0 hc hcr
    unfold computedStatus
    rw [h0]
    rw [if_neg (not_le.mpr hpos), if_neg (lt_irrefl 0), if_pos ⟨hc, hcr⟩]
  · intro h0 hcase
    unfold computedStatus
    rw [h0]
    rw [if_neg (not_le.mpr hpos), if_neg (lt_irrefl 0),
      if_neg (by rcases hcase with h | h <;> simp [h])]

/-- C1 witness: a cancelled invoice with positive total and no recorded
amount displays its stored cancelled status. -/
theorem c1_amended_witness :
    computedStatus ⟨FIStatus.cancelled, 1000, 0, 1000, []⟩ = FIStatus.cancelled :=
  (c1_computedStatus_amended _ (by norm_num)).2.2.2 rfl (Or.inl rfl)

/-- C2 counterexample: the claim says revert zeroes both aggregates when no
payments exist, but handleUpdateStatus sets client_debt to the full
invoice total in that branch (the invoice shown is cancelled, hence inside
the revert gate). -/
theorem c2_revert_counterexample :
    computedStatus ⟨FIStatus.cancelled, 1000, 0, 0, []⟩ = FIStatus.cancelled ∧
    (handleRevertToUnpaid ⟨FIStatus.cancelled, 1000, 0, 0, []⟩).client_debt = 1000 ∧
    (1000 : ℚ) ≠ 0 := by
  refine ⟨?_, ?_, ?_⟩
  · decide
  · decide
  · norm_num

/-- C2 (amended): revert on a final invoice whose computed status is paid,
partially_paid or cancelled keeps all recorded payments and sets the
status to unpaid; when the payments sum is positive it sets amount_paid to
that sum and client_debt to max(0, total - sum); when the payments sum is
not positive it sets amount_paid to 0 and client_debt to the full invoice
total (not to 0). -/
theorem c2_revert_amended (s : InvoiceState)
    (_hgate : computedStatus s = FIStatus.paid ∨ computedStatus s = FIStatus.partially_paid ∨
      computedStatus s = FIStatus.cancelled) :
    (handleRevertToUnpaid s).payments = s.payments ∧
    (handleRevertToUnpaid s).status = FIStatus.unpaid ∧
    (0 < sumPayments s →
      (handleRevertToUnpaid s).amount_paid = sumPayments s ∧
      (handleRevertToUnpaid s).client_debt = max 0 (s.total - sumPayments s)) ∧
    (sumPayments s ≤ 0 →
      (handleRevertToUnpaid s).amount_paid = 0 ∧
      (handleRevertToUnpaid s).client_debt = s.total) := by
  rw [handleRevertToUnpaid_eq]
  by_cases h : sumPayments s > 0
  · rw [if_pos h]
    exact ⟨rfl, rfl, fun _ => ⟨rfl, rfl⟩, fun hle => absurd h (not_lt.mpr hle)⟩
  · rw [if_neg h]
    exact ⟨rfl, rfl, fun hgt => absurd hgt h, fun _ => ⟨rfl, rfl⟩⟩

/-- C2 witness: reverting a cancelled invoice with an empty ledger and
total 1000 yields amount_paid 0 and client_debt 1000. -/
theorem c2_amended_witness :
    (handleRevertToUnpaid ⟨FIStatus.cancelled, 1000, 0, 0, []⟩).amount_paid = 0 ∧
    (handleRevertToUnpaid ⟨FIStatus.cancelled, 1000, 0, 0, []⟩).client_debt = 1000 :=
  (c2_revert_amended _ (Or.inr (Or.inr (by decide)))).2.2.2 (by decide)

/-- C3: calculateStampTax returns 0 for every non-cash payment type; for
cash it returns subtotal * 0.02 above 100000, subtotal * 0.015 on
(30000, 100000], subtotal * 0.01 on (300, 30000], and 0 at or below 300 -
the thresholds are exclusive lower bounds taken highest first. -/
theorem c3_calculateStampTax_spec (pt : String) (s : ℚ) (_hs : 0 ≤ s) :
    (pt ≠ "cash" → calculateStampTax pt s = 0) ∧
    (pt = "cash" →
      (100000 < s → calculateStampTax pt s = s * 0.02) ∧
      (30000 < s → s ≤ 100000 → calculateStampTax pt s = s * 0.015) ∧
      (300 < s → s ≤ 30000 → calculateStampTax pt s = s * 0.01) ∧
      (s ≤ 300 → calculateStampTax pt s = 0)) := by
  constructor
  · intro h
    unfold calculateStampTax
    rw [if_pos h]
  · intro h
    subst h
    refine ⟨?_, ?_, ?_, ?_⟩
    · intro h1
      unfold calculateStampTax
      rw [if_neg (not_not_intro rfl), if_pos h1]
    · intro h1 h2
      unfold calculateStampTax
      rw [if_neg (not_not_intro rfl), if_neg (not_lt.mpr h2), if_pos h1]
    · intro h1 h2
      unfold calculateStampTax
      rw [if_neg (not_not_intro rfl),
        if_neg (not_lt.mpr (le_trans h2 (by norm_num))),
        if_neg (not_lt.mpr h2), if_pos h1]
    · intro h1
      unfold calculateStampTax
      rw [if_neg (not_not_intro rfl),
        if_neg (not_lt.mpr (le_trans h1 (by norm_num))),
        if_neg (not_lt.mpr (le_trans h1 (by norm_num))),
        if_neg (not_lt.mpr h1)]

/-- C3 witness: 150000 cash is taxed at 2 percent, 300 cash is below the
exclusive boundary and untaxed, and a cheque payment is never taxed. -/
theorem c3_witness :
    calculateStampTax ("cash") 150000 = 150000 * 0.02 ∧
    calculateStampTax ("cash") 300 = 0 ∧
    calculateStampTax ("cheque") 150000 = 0 :=
  ⟨((c3_calculateStampTax_spec ("cash") 150000 (by norm_num)).2 rfl).1 (by norm_num),
   ((c3_calculateStampTax_spec ("cash") 300 (by norm_num)).2 rfl).2.2.2 (by norm_num),
   (c3_calculateStampTax_spec ("cheque") 150000 (by norm_num)).1 (by decide)⟩

/-- C4: on every state reachable from invoice creation through the guarded
mark-paid, cancel, revert, edit-status, add-payment and delete-payment
operations, if the stored status is neither cancelled nor credited then
amount_paid + client_debt equals the total to within the claimed 0.01
tolerance. -/
theorem c4_balance_invariant (s : InvoiceState) (hr : Reachable s)
    (_hc : s.status ≠ FIStatus.cancelled) (_hcr : s.status ≠ FIStatus.credited) :
    |s.amount_paid + s.client_debt - s.total| ≤ 1/100 :=
  goodState_balance (reachable_goodState hr)

/-- C4 witness: the balance bound holds on a freshly created empty
invoice. -/
theorem c4_balance_witness :
    |(createdState ⟨"c1", "", "cheque", "", []⟩).amount_paid +
      (createdState ⟨"c1", "", "cheque", "", []⟩).client_debt -
      (createdState ⟨"c1", "", "cheque", "", []⟩).total| ≤ 1/100 :=
  c4_balance_invariant _ (Reachable.created _) (by decide) (by decide)

/-- C5: the percentage-discount formula used by createInvoiceMutation and
updateItemProduct and the flat-amount formula used by calculateTotals are
not equivalent: an item with quantity 1, unit price 200 and discount 50
yields 100 under the former and 150 under the latter. -/
theorem c5_discount_formulas_inequivalent :
    ∃ it : InvoiceItem, (calculateItem it).totalExcl ≠ itemSubtotal it := by
  refine ⟨⟨"p1", 1, 200, 19, 50⟩, ?_⟩
  unfold calculateItem itemSubtotal
  norm_num

/-- C6: a successful conversion requires the proforma to be approved with
no linked final invoice, links the new final invoice id on the proforma,
and a second conversion attempt on the updated proforma fails (returns
none) and is not offered by the UI gate - so a proforma gets at most one
final invoice. -/
theorem c6_convert_at_most_once (p p1 : Proforma) (f1 : FinalInvoice)
    (id1 id2 : String)
    (h : convertProformaToFinal p id1 = some (p1, f1)) :
    p.status = ProformaStatus.approved ∧ p.finalInvoiceId = none ∧
    p1.finalInvoiceId = some id1 ∧
    convertProformaToFinal p1 id2 = none ∧
    (∀ b : Bool, ¬ convertOffered p1 b) := by
  unfold convertProformaToFinal at h
  split_ifs at h with hg
  · obtain ⟨hs, hf⟩ := hg
    rw [Option.some.injEq, Prod.mk.injEq] at h
    obtain ⟨hp1, hf1⟩ := h
    have hfid : p1.finalInvoiceId = some id1 := by rw [← hp1]
    refine ⟨hs, hf, hfid, ?_, ?_⟩
    · have hneg : ¬(p1.status = ProformaStatus.approved ∧ p1.finalInvoiceId = none) := by
        intro hand
        rw [hfid] at hand
        exact Option.some_ne_none id1 hand.2
      unfold convertProformaToFinal
      rw [if_neg hneg]
    · intro b hb
      obtain ⟨_, hnone, _⟩ := hb
      rw [hfid] at hnone
      exact Option.some_ne_none id1 hnone

/-- C6 witness: converting a fresh approved proforma succeeds, and the
second attempt on the converted proforma returns none. -/
theorem c6_convert_witness :
    convertProformaToFinal ⟨ProformaStatus.approved, some ("F1"), "c1", "", "", "", []⟩
      ("F2") = none :=
  (c6_convert_at_most_once ⟨ProformaStatus.approved, none, "c1", "", "", "", []⟩
    ⟨ProformaStatus.approved, some ("F1"), "c1", "", "", "", []⟩
    (createInvoiceData (prefillFromProforma
      ⟨ProformaStatus.approved, none, "c1", "", "", "", []⟩))
    ("F1") ("F2") (by rfl)).2.2.2.1

/-- C7: createInvoiceMutation (also used for conversion through the
proforma prefill) produces an invoice in the unpaid state with
amount_paid 0 and client_debt equal to the total
subtotal + taxTotal + stampTax, copying clientid, notes, payment_type and
bc and recalculating every item's totalExcl, totalTax and total. -/
theorem c7_createInvoice_spec (d : FormData) (p : Proforma) :
    (createInvoiceData d).status = FIStatus.unpaid ∧
    (createInvoiceData d).amount_paid = 0 ∧
    (createInvoiceData d).client_debt = (createInvoiceData d).total ∧
    (createInvoiceData d).total = (createInvoiceData d).subtotal +
      (createInvoiceData d).taxtotal + (createInvoiceData d).stamp_tax ∧
    (createInvoiceData d).stamp_tax =
      calculateStampTax d.payment_type (createInvoiceData d).subtotal ∧
    (createInvoiceData d).items = d.items.map calculateItem ∧
    (createInvoiceData d).subtotal =
      ((d.items.map calculateItem).map (fun it => it.totalExcl)).sum ∧
    (createInvoiceData d).taxtotal =
      ((d.items.map calculateItem).map (fun it => it.totalTax)).sum ∧
    (∀ it : InvoiceItem,
      (calculateItem it).totalExcl =
        it.quantity * it.unitprice * (1 - it.discount / 100) ∧
      (calculateItem it).totalTax = (calculateItem it).totalExcl * (it.taxrate / 100) ∧
      (calculateItem it).total = (calculateItem it).totalExcl + (calculateItem it).totalTax) ∧
    (createInvoiceData d).clientid = d.clientid ∧
    (createInvoiceData d).notes = d.notes ∧
    (createInvoiceData d).payment_type = d.payment_type ∧
    (createInvoiceData d).bc = d.bc ∧
    (createInvoiceData (prefillFromProforma p)).status = FIStatus.unpaid ∧
    (createInvoiceData (prefillFromProforma p)).clientid = p.clientid :=
  ⟨rfl, rfl, rfl, rfl, rfl, rfl, rfl, rfl, fun _ => ⟨rfl, rfl, rfl⟩,
   rfl, rfl, rfl, rfl, rfl, rfl⟩

/-- C8: mark-as-paid sets amount_paid to exactly the total and client_debt
to 0, leaves the total unchanged, is idempotent as a state transformer
(so a second application still yields amount_paid = total, never
2 * total), and a marked-paid invoice no longer offers the mark-paid
action because its computed status is paid. -/
theorem c8_markPaid_idempotent (s : InvoiceState) :
    (handleMarkAsPaid s).amount_paid = s.total ∧
    (handleMarkAsPaid s).client_debt = 0 ∧
    (handleMarkAsPaid s).status = FIStatus.paid ∧
    (handleMarkAsPaid s).total = s.total ∧
    handleMarkAsPaid (handleMarkAsPaid s) = handleMarkAsPaid s ∧
    (handleMarkAsPaid (handleMarkAsPaid s)).amount_paid = s.total ∧
    computedStatus (handleMarkAsPaid s) = FIStatus.paid ∧
    (∀ b : Bool, ¬ markPaidOffered (handleMarkAsPaid s) b) := by
  have he := handleMarkAsPaid_eq s
  have hidem : handleMarkAsPaid (handleMarkAsPaid s) = handleMarkAsPaid s := by
    rw [he, handleMarkAsPaid_eq]
  have hcs : computedStatus (handleMarkAsPaid s) = FIStatus.paid := by
    rw [he]
    unfold computedStatus
    rw [if_pos (le_refl s.total)]
  refine ⟨by rw [he], by rw [he], by rw [he], by rw [he], hidem,
    by rw [hidem, he], hcs, ?_⟩
  intro b hb
  obtain ⟨hu, _⟩ := hb
  rw [hcs] at hu
  exact absurd hu (by simp)

/-- C8 witness: marking a concrete 1000-total invoice paid once and twice
both leave amount_paid at exactly 1000. -/
theorem c8_markPaid_witness :
    (handleMarkAsPaid ⟨FIStatus.unpaid, 1000, 0, 1000, []⟩).amount_paid = 1000 ∧
    (handleMarkAsPaid (handleMarkAsPaid
      ⟨FIStatus.unpaid, 1000, 0, 1000, []⟩)).amount_paid = 1000 :=
  ⟨(c8_markPaid_idempotent ⟨FIStatus.unpaid, 1000, 0, 1000, []⟩).1,
   (c8_markPaid_idempotent ⟨FIStatus.unpaid, 1000, 0, 1000, []⟩).2.2.2.2.2.1⟩

/-- C9: the submitted payment amount must be strictly positive (form
schema); the amount-field handler records the entered value rounded to two
decimals whenever it does not exceed the remaining debt, and records the
remaining debt rounded to two decimals whenever the entered value exceeds
it (clamping with a notice rather than rejecting). -/
theorem c9_payment_clamp_spec (v rd : ℚ) (hv : 0 < v) :
    paymentFormSchemaAmountOk v ∧
    (v ≤ rd → amountFieldOnChange v rd = roundCents v) ∧
    (rd < v → amountFieldOnChange v rd = roundCents rd) := by
  refine ⟨hv, ?_, ?_⟩
  · intro hle
    unfold amountFieldOnChange
    split_ifs with h
    · rfl
    · exact roundCents_eq_of_le_of_lt hle (lt_of_not_le h)
  · intro hlt
    unfold amountFieldOnChange
    split_ifs with h
    · exact (roundCents_eq_of_le_of_lt2 h hlt).symm
    · rfl

/-- C9 witness: with remaining debt 600, entering 400 records 400 and
entering 700 is clamped to 600. -/
theorem c9_payment_clamp_witness :
    paymentFormSchemaAmountOk 400 ∧
    amountFieldOnChange 400 600 = roundCents 400 ∧
    amountFieldOnChange 700 600 = roundCents 600 :=
  ⟨(c9_payment_clamp_spec 400 600 (by norm_num)).1,
   (c9_payment_clamp_spec 400 600 (by norm_num)).2.1 (by norm_num),
   (c9_payment_clamp_spec 700 600 (by norm_num)).2.2 (by norm_num)⟩

/-- C10: a final invoice with nonpositive total and zero amount_paid
displays paid regardless of its stored status (the amount_paid >= total
branch fires first), so the computed-unpaid-gated mark-paid, cancel and
delete actions are not offered for it. -/
theorem c10_zero_total_displays_paid (s : InvoiceState) (h1 : s.total ≤ 0)
    (h2 : s.amount_paid = 0) :
    computedStatus s = FIStatus.paid ∧
    (∀ b : Bool, ¬ markPaidOffered s b) ∧
    (∀ b : Bool, ¬ cancelOffered s b) ∧
    (∀ b : Bool, ¬ deleteOffered s b) := by
  have hcs : computedStatus s = FIStatus.paid := by
    unfold computedStatus
    rw [if_pos (by rw [h2]; exact h1)]
  refine ⟨hcs, ?_, ?_, ?_⟩
  · intro b hb
    obtain ⟨hu, _⟩ := hb
    rw [hcs] at hu
    exact absurd hu (by simp)
  · intro b hb
    obtain ⟨hu, _⟩ := hb
    rw [hcs] at hu
    exact absurd hu (by simp)
  · intro b hb
    obtain ⟨hu, _⟩ := hb
    rw [hcs] at hu
    exact absurd hu (by simp)

/-- C10 witness: a stored-credited invoice with total 0 and no recorded
amount displays paid and is not offered the mark-paid action. -/
theorem c10_zero_total_witness :
    computedStatus ⟨FIStatus.credited, 0, 0, 0, []⟩ = FIStatus.paid ∧
    ¬ markPaidOffered ⟨FIStatus.credited, 0, 0, 0, []⟩ true :=
  ⟨(c10_zero_total_displays_paid ⟨FIStatus.credited, 0, 0, 0, []⟩
      (by norm_num) rfl).1,
   (c10_zero_total_displays_paid ⟨FIStatus.credited, 0, 0, 0, []⟩
      (by norm_num) rfl).2.1 true⟩
